import Mathlib

/-!
Verification development for the JFR upload sidecar.

The development shallowly embeds the file-lifecycle pipeline of the Go
sidecar: `processFile`, `handleFileEvent`, `scanAndUploadExisting` and
`watchDirectoryRecursive` from `internal/daemon/scanner.go`, and
`GCSUploader.Upload` from `internal/uploader/gcs.go`.

Modelling conventions:
- Every fallible external call (os.Open, (os.)Stat, io.Copy, writer.Close,
  os.Remove, watcher.Add) is driven by an explicit result environment that
  fixes the outcome the operating system or the object store returns for
  that call, so a single run of the Go function is a pure Lean function of
  the environment.
- Each function additionally returns the ordered trace of externally
  visible actions it performed, as a list of `Effect` values; an effect is
  recorded at the point where the Go code issues the corresponding call.
  `Effect.commitObject` is recorded exactly when the success-path
  `writer.Close()` returns nil, i.e. when the upload is finalized and the
  operation is about to report success.
- File sizes are the non-negative int64 values returned by Stat, modelled
  as `Nat`. File contents are byte lists (`List Nat`).
- Paths are strings; the helpers `segments`, `hasSuffix`, `filepathRel`
  and `filepathBase` mirror strings.Split (on the path separator),
  strings.HasSuffix, filepath.Rel and filepath.Base. `filepathRel` is
  modelled for targets lying strictly under the base directory, which is
  the only way the scanner and the watcher ever call it (both discover
  paths by walking or watching the root).
- The external object store is modelled by `RemoteStore` with the
  overwrite-on-write semantics the design assumes of the Remote Sink.
-/

deriving instance DecidableEq for Except

/-- Root HostPath directory watched by the daemon (scanner.go). -/
def rootProfileDir : String := "/tmp/jfr"

/-- Delay, in milliseconds, that handleFileEvent sleeps before processing a
file event (scanner.go: time.Sleep(5 * time.Second)). -/
def eventSettleDelayMs : Nat := 5000

/-- Delay, in milliseconds, between the two Stat calls of the stability
re-check inside Upload (gcs.go: time.Sleep(2 * time.Second)). -/
def uploadSettleDelayMs : Nat := 2000

/-- Split a character list on the path separator, mirroring
strings.Split(s, "/") for a single-character separator. -/
def splitPath : List Char → List (List Char)
  | [] => [[]]
  | c :: rest =>
    match splitPath rest with
    | [] => [[]]
    | s :: ss => if c = '/' then [] :: s :: ss else (c :: s) :: ss

/-- Path segments of a string, mirroring
strings.Split(relativePath, string(os.PathSeparator)). -/
def segments (p : String) : List String :=
  (splitPath p.data).map fun cs => String.mk cs

/-- Mirror of strings.HasSuffix. -/
def hasSuffix (s suffix : String) : Bool :=
  List.isSuffixOf suffix.data s.data

/-- Mirror of filepath.Rel(root, p) for targets under the base directory:
when root followed by the separator is a prefix of p the call returns the
remainder of p, otherwise it fails. Both discovery sources of the daemon
(the recursive watch and the tree walk rooted at rootProfileDir) only ever
produce targets under the root, so this covers every reachable call. -/
def filepathRel (root p : String) : Except String String :=
  if List.isPrefixOf (root.data ++ ['/']) p.data then
    Except.ok (String.mk (p.data.drop (root.data.length + 1)))
  else
    Except.error ("cannot make " ++ p ++ " relative to " ++ root)

/-- Mirror of filepath.Base for the nonempty, separator-terminated-free
paths the daemon handles: the last separator-delimited segment. -/
def filepathBase (p : String) : String :=
  String.mk ((splitPath p.data).getLastD p.data)

/-- Externally visible action of one pipeline run, recorded in order. -/
inductive Effect where
  | openFile (path : String)
  | statFile (path : String)
  | statHandle (path : String)
  | sleepMs (ms : Nat)
  | writeStart (objectPath : String)
  | closeCall (objectPath : String)
  | commitObject (objectPath contentType : String) (content : List Nat)
  | removeCall (path : String)
  | watchAdd (dir : String)
  deriving DecidableEq, Repr

/-- Outcomes of the external calls issued by one run of Upload (gcs.go):
os.Open, the two file.Stat calls around the settle delay, io.Copy (whose
success carries the bytes streamed to the writer), and the finalizing
writer.Close. -/
structure UploadEnv where
  openRes : Except String Unit
  stat1Res : Except String Nat
  stat2Res : Except String Nat
  copyRes : Except String (List Nat)
  closeRes : Except String Unit
  deriving DecidableEq, Repr

/-- State of the GCS uploader (gcs.go); the bucket name only feeds logging
and the gs scheme display path, not the object path. -/
structure GCSUploader where
  bucketName : String
  deriving DecidableEq, Repr

/-- Embedding of GCSUploader.Upload (gcs.go, lines 35 to 93): open the
local file, Stat it, sleep the settle delay, Stat again and abort when the
size changed; otherwise derive the object path from the pod name and the
base name, stream the bytes, and finalize with writer.Close, reporting
success only when Close returned nil. On an io.Copy error the Go code
calls writer.Close() and discards its result, so that path records a
closeCall but never a commitObject. -/
def GCSUploader.Upload (u : GCSUploader) (env : UploadEnv)
    (localPath podName : String) : Except String Unit × List Effect :=
  match env.openRes with
  | .error e =>
    (.error ("failed to open file " ++ localPath ++ ": " ++ e),
      [.openFile localPath])
  | .ok _ =>
    match env.stat1Res with
    | .error e =>
      (.error ("failed to get file info: " ++ e),
        [.openFile localPath, .statHandle localPath])
    | .ok size1 =>
      match env.stat2Res with
      | .error e =>
        (.error ("failed to re-check file info: " ++ e),
          [.openFile localPath, .statHandle localPath,
           .sleepMs uploadSettleDelayMs, .statHandle localPath])
      | .ok size2 =>
        if size2 ≠ size1 then
          (.error "file is still being written (size changed)",
            [.openFile localPath, .statHandle localPath,
             .sleepMs uploadSettleDelayMs, .statHandle localPath])
        else
          let objectPath := podName ++ "/" ++ filepathBase localPath
          match env.copyRes with
          | .error e =>
            (.error ("failed to upload file: " ++ e),
              [.openFile localPath, .statHandle localPath,
               .sleepMs uploadSettleDelayMs, .statHandle localPath,
               .writeStart objectPath, .closeCall objectPath])
          | .ok content =>
            match env.closeRes with
            | .error e =>
              (.error ("failed to finalize upload: " ++ e),
                [.openFile localPath, .statHandle localPath,
                 .sleepMs uploadSettleDelayMs, .statHandle localPath,
                 .writeStart objectPath, .closeCall objectPath])
            | .ok _ =>
              (.ok (),
                [.openFile localPath, .statHandle localPath,
                 .sleepMs uploadSettleDelayMs, .statHandle localPath,
                 .writeStart objectPath, .closeCall objectPath,
                 .commitObject objectPath "application/octet-stream" content])

/-- Outcomes of the external calls issued by one run of processFile
(scanner.go): the os.Stat on the candidate, the environment of the nested
Upload call, and the final os.Remove. -/
structure ProcEnv where
  statRes : Except String Nat
  uploadEnv : UploadEnv
  removeRes : Except String Unit
  deriving DecidableEq, Repr

/-- First element of the split relative path, parts[0] in the Go code;
the list is nonempty at the use site since its length is at least two. -/
def firstSegment (parts : List String) : String :=
  parts.headD ""

/-- Embedding of processFile (scanner.go, lines 111 to 151): derive the
path relative to the root, require at least two segments, take the first
segment as the pod name, Stat the file, skip empty files with a nil
result, upload, and only after a successful upload call os.Remove on the
local file. -/
def processFile (u : GCSUploader) (env : ProcEnv) (filePath : String) :
    Except String Unit × List Effect :=
  match filepathRel rootProfileDir filePath with
  | .error e => (.error ("failed to get relative path: " ++ e), [])
  | .ok relativePath =>
    let parts := segments relativePath
    if parts.length < 2 then
      (.error ("invalid file path structure: " ++ filePath), [])
    else
      let podName := firstSegment parts
      match env.statRes with
      | .error e => (.error ("file not accessible: " ++ e), [.statFile filePath])
      | .ok size =>
        if size = 0 then
          (.ok (), [.statFile filePath])
        else
          match u.Upload env.uploadEnv filePath podName with
          | (.error e, fx) => (.error ("upload failed: " ++ e), .statFile filePath :: fx)
          | (.ok _, fx) =>
            match env.removeRes with
            | .error e =>
              (.error ("failed to delete local file: " ++ e),
                .statFile filePath :: (fx ++ [.removeCall filePath]))
            | .ok _ =>
              (.ok (), .statFile filePath :: (fx ++ [.removeCall filePath]))

/-- Operation flags of an fsnotify event. -/
structure FsOp where
  create : Bool
  write : Bool
  remove : Bool
  rename : Bool
  chmod : Bool
  deriving DecidableEq, Repr

/-- One fsnotify event: the affected path and the operation flags. -/
structure FsEvent where
  name : String
  op : FsOp
  deriving DecidableEq, Repr

/-- Embedding of handleFileEvent (scanner.go, lines 86 to 108): ignore
names without the .jfr suffix, treat Remove events as informational only,
and on Create or Write sleep five seconds and run processFile, logging and
discarding its error. The handler returns no error to its caller; its
observable outcome is exactly its effect trace. -/
def handleFileEvent (u : GCSUploader) (env : ProcEnv) (event : FsEvent) :
    List Effect :=
  if !(hasSuffix event.name ".jfr") then []
  else if event.op.remove then []
  else if event.op.create || event.op.write then
    .sleepMs eventSettleDelayMs :: (processFile u env event.name).2
  else []

/-- One entry of a filepath.Walk traversal: the visited path, whether it
is a directory, and the access error passed to the walk function for it
(nil when the entry was readable). -/
structure WalkEntry where
  path : String
  isDir : Bool
  walkErr : Option String
  deriving DecidableEq, Repr

/-- Effects of one walk-function visit of scanAndUploadExisting
(scanner.go, lines 154 to 172): an inaccessible entry is logged and
skipped, a non-directory entry whose base name has the .jfr suffix is
handed to processFile, and any processFile error is logged and discarded
so the walk continues. -/
def scanVisit (u : GCSUploader) (e : WalkEntry × ProcEnv) : List Effect :=
  match e.1.walkErr with
  | some _ => []
  | none =>
    if !e.1.isDir && hasSuffix (filepathBase e.1.path) ".jfr" then
      (processFile u e.2 e.1.path).2
    else []

/-- Embedding of scanAndUploadExisting (scanner.go, lines 154 to 172):
the walk function never returns an error (every per-entry failure is
logged and swallowed), so the whole scan always returns nil together with
the concatenated visit effects. -/
def scanAndUploadExisting (u : GCSUploader)
    (entries : List (WalkEntry × ProcEnv)) : Except String Unit × List Effect :=
  (.ok (), (entries.map (scanVisit u)).flatten)

/-- Embedding of watchDirectoryRecursive (scanner.go, lines 175 to 190):
walk the tree once; an access error or a failed watcher.Add aborts the
walk with an error; every directory visited successfully is added to the
watch set. addRes gives the outcome of watcher.Add per directory. -/
def watchDirectoryRecursive (addRes : String → Except String Unit) :
    List WalkEntry → Except String Unit × List Effect
  | [] => (.ok (), [])
  | e :: rest =>
    match e.walkErr with
    | some msg => (.error msg, [])
    | none =>
      if e.isDir then
        match addRes e.path with
        | .error m => (.error ("failed to watch " ++ e.path ++ ": " ++ m), [])
        | .ok _ =>
          let r := watchDirectoryRecursive addRes rest
          (r.1, .watchAdd e.path :: r.2)
      else watchDirectoryRecursive addRes rest

/-- Model of the external Remote Sink assumed by the design: a store of
named objects, each carrying a content type and its bytes. -/
abbrev RemoteStore := List (String × (String × List Nat))

/-- Committing an object overwrites any object previously stored under the
same path: overwrite semantics, no versioning. -/
def putObject (store : RemoteStore) (objectPath contentType : String)
    (content : List Nat) : RemoteStore :=
  (objectPath, (contentType, content)) :: store.filter (fun entry => entry.1 != objectPath)

/-- Reading an object returns the single current content type and content
stored under the path. -/
def getObject (store : RemoteStore) (objectPath : String) :
    Option (String × List Nat) :=
  (store.find? (fun entry => entry.1 == objectPath)).map Prod.snd

/-- Helper: Upload never calls os.Remove. -/
theorem upload_no_removeCall (u : GCSUploader) (env : UploadEnv) (p pod q : String) :
    Effect.removeCall q ∉ (u.Upload env p pod).2 := by
  rcases ho : env.openRes with e | v <;>
    rcases h1 : env.stat1Res with e1 | a <;>
      rcases h2 : env.stat2Res with e2 | b <;>
        rcases hc : env.copyRes with e3 | c <;>
          rcases hl : env.closeRes with e4 | w <;>
            simp [GCSUploader.Upload, ho, h1, h2, hc, hl] <;>
              (try split) <;> simp

/-- Helper: Upload never adds a watch subscription. -/
theorem upload_no_watchAdd (u : GCSUploader) (env : UploadEnv) (p pod d : String) :
    Effect.watchAdd d ∉ (u.Upload env p pod).2 := by
  rcases ho : env.openRes with e | v <;>
    rcases h1 : env.stat1Res with e1 | a <;>
      rcases h2 : env.stat2Res with e2 | b <;>
        rcases hc : env.copyRes with e3 | c <;>
          rcases hl : env.closeRes with e4 | w <;>
            simp [GCSUploader.Upload, ho, h1, h2, hc, hl] <;>
              (try split) <;> simp

/-- Helper: a successful Upload determines every call outcome and the full
trace, ending in the finalized commit of the derived object path. -/
theorem upload_ok_shape (u : GCSUploader) (env : UploadEnv) (p pod : String)
    (h : (u.Upload env p pod).1 = Except.ok ()) :
    env.openRes = Except.ok () ∧ env.closeRes = Except.ok () ∧
    ∃ s content, env.stat1Res = Except.ok s ∧ env.stat2Res = Except.ok s ∧
      env.copyRes = Except.ok content ∧
      (u.Upload env p pod).2 =
        [Effect.openFile p, Effect.statHandle p,
         Effect.sleepMs uploadSettleDelayMs, Effect.statHandle p,
         Effect.writeStart (pod ++ "/" ++ filepathBase p),
         Effect.closeCall (pod ++ "/" ++ filepathBase p),
         Effect.commitObject (pod ++ "/" ++ filepathBase p)
           "application/octet-stream" content] := by
  rcases ho : env.openRes with e | v <;>
    rcases h1 : env.stat1Res with e1 | a <;>
      rcases h2 : env.stat2Res with e2 | b <;>
        rcases hc : env.copyRes with e3 | c <;>
          rcases hl : env.closeRes with e4 | w <;>
            simp [GCSUploader.Upload, ho, h1, h2, hc, hl] at h ⊢ <;>
              (try split at h) <;> simp_all

/-- Helper: when the two stability Stat reads disagree, Upload performs no
remote write and records no commit. -/
theorem upload_drift_no_write (u : GCSUploader) (env : UploadEnv)
    (p pod : String) (a b : Nat) (h1 : env.stat1Res = Except.ok a)
    (h2 : env.stat2Res = Except.ok b) (hne : a ≠ b) :
    (∀ o, Effect.writeStart o ∉ (u.Upload env p pod).2) ∧
    (∀ o ct c, Effect.commitObject o ct c ∉ (u.Upload env p pod).2) := by
  rcases ho : env.openRes with e | v <;>
    simp [GCSUploader.Upload, ho, h1, h2, Ne.symm hne]

/-- Helper: when the handle opened and the two stability reads disagree,
Upload returns exactly the size-changed failure and the stat-sleep-stat
trace. -/
theorem upload_drift_result (u : GCSUploader) (env : UploadEnv)
    (p pod : String) (a b : Nat) (hopen : env.openRes = Except.ok ())
    (h1 : env.stat1Res = Except.ok a) (h2 : env.stat2Res = Except.ok b)
    (hne : a ≠ b) :
    u.Upload env p pod =
      (Except.error "file is still being written (size changed)",
        [Effect.openFile p, Effect.statHandle p,
         Effect.sleepMs uploadSettleDelayMs, Effect.statHandle p]) := by
  simp [GCSUploader.Upload, hopen, h1, h2, Ne.symm hne]

/-- Helper: any writeStart in an Upload trace forces the two stability
reads to have agreed, names the derived object path, and fixes the prefix
of the trace up to the write. -/
theorem upload_writeStart_mem (u : GCSUploader) (env : UploadEnv)
    (p pod o : String) (h : Effect.writeStart o ∈ (u.Upload env p pod).2) :
    o = pod ++ "/" ++ filepathBase p ∧
    (∃ s, env.stat1Res = Except.ok s ∧ env.stat2Res = Except.ok s) ∧
    ∃ rest, (u.Upload env p pod).2 =
      [Effect.openFile p, Effect.statHandle p,
       Effect.sleepMs uploadSettleDelayMs, Effect.statHandle p,
       Effect.writeStart (pod ++ "/" ++ filepathBase p)] ++ rest := by
  rcases ho : env.openRes with e | v <;>
    rcases h1 : env.stat1Res with e1 | a <;>
      rcases h2 : env.stat2Res with e2 | b <;>
        rcases hc : env.copyRes with e3 | c <;>
          rcases hl : env.closeRes with e4 | w <;>
            simp [GCSUploader.Upload, ho, h1, h2, hc, hl] at h ⊢ <;>
              (try split at h) <;> simp_all

/-- Helper: a commit effect in an Upload trace forces the success result
and a successful finalizing Close. -/
theorem upload_commit_requires_ok (u : GCSUploader) (env : UploadEnv)
    (p pod o ct : String) (c : List Nat)
    (h : Effect.commitObject o ct c ∈ (u.Upload env p pod).2) :
    (u.Upload env p pod).1 = Except.ok () ∧ env.closeRes = Except.ok () ∧
    o = pod ++ "/" ++ filepathBase p ∧ ct = "application/octet-stream" ∧
    env.copyRes = Except.ok c := by
  rcases ho : env.openRes with e | v <;>
    rcases h1 : env.stat1Res with e1 | a <;>
      rcases h2 : env.stat2Res with e2 | b <;>
        rcases hc : env.copyRes with e3 | cc <;>
          rcases hl : env.closeRes with e4 | w <;>
            simp [GCSUploader.Upload, ho, h1, h2, hc, hl] at h ⊢ <;>
              (try split at h) <;> simp_all

/-- Helper: every effect of a processFile run is its own Stat, its own
Remove, or an effect of the nested Upload run on the derived pod name. -/
theorem processFile_mem_cases (u : GCSUploader) (env : ProcEnv) (p : String)
    (x : Effect) (h : x ∈ (processFile u env p).2) :
    x = Effect.statFile p ∨ x = Effect.removeCall p ∨
    ∃ rel, filepathRel rootProfileDir p = Except.ok rel ∧
      x ∈ (u.Upload env.uploadEnv p (firstSegment (segments rel))).2 := by
  rcases hr : filepathRel rootProfileDir p with e | rel
  · simp [processFile, hr] at h
  · by_cases hlen : (segments rel).length < 2
    · simp [processFile, hr, hlen] at h
    · rcases hs : env.statRes with e | size
      · simp [processFile, hr, hlen, hs] at h
        simp [h]
      · by_cases hz : size = 0
        · simp [processFile, hr, hlen, hs, hz] at h
          simp [h]
        · rcases hu : u.Upload env.uploadEnv p (firstSegment (segments rel)) with ⟨r, fx⟩
          rcases r with e | v
          · simp [processFile, hr, hlen, hs, hz, hu] at h
            rcases h with h | h
            · simp [h]
            · exact Or.inr (Or.inr ⟨rel, rfl, by simp [hu, h]⟩)
          · rcases hrm : env.removeRes with e | w <;>
            · simp [processFile, hr, hlen, hs, hz, hu, hrm] at h
              rcases h with h | h | h
              · exact Or.inl h
              · exact Or.inr (Or.inr ⟨rel, rfl, by simp [hu, h]⟩)
              · exact Or.inr (Or.inl h)

/-- Helper: processFile never adds a watch subscription. -/
theorem processFile_no_watchAdd (u : GCSUploader) (env : ProcEnv)
    (p d : String) : Effect.watchAdd d ∉ (processFile u env p).2 := by
  intro h
  rcases processFile_mem_cases u env p _ h with h | h | ⟨rel, _, hmem⟩
  · exact Effect.noConfusion h
  · exact Effect.noConfusion h
  · exact upload_no_watchAdd u env.uploadEnv p (firstSegment (segments rel)) d hmem

/-- Helper: a Remove call in a processFile trace forces the whole pipeline
for that path to have succeeded up to and including the upload, and fixes
the position of the Remove at the very end of the trace. -/
theorem processFile_removeCall_shape (u : GCSUploader) (env : ProcEnv)
    (p q : String) (h : Effect.removeCall q ∈ (processFile u env p).2) :
    q = p ∧ ∃ rel, filepathRel rootProfileDir p = Except.ok rel ∧
      2 ≤ (segments rel).length ∧
      (u.Upload env.uploadEnv p (firstSegment (segments rel))).1 = Except.ok () ∧
      (processFile u env p).2 =
        Effect.statFile p ::
          ((u.Upload env.uploadEnv p (firstSegment (segments rel))).2
            ++ [Effect.removeCall p]) := by
  rcases hr : filepathRel rootProfileDir p with e | rel
  · simp [processFile, hr] at h
  · by_cases hlen : (segments rel).length < 2
    · simp [processFile, hr, hlen] at h
    · rcases hs : env.statRes with e | size
      · simp [processFile, hr, hlen, hs] at h
      · by_cases hz : size = 0
        · simp [processFile, hr, hlen, hs, hz] at h
        · rcases hu : u.Upload env.uploadEnv p (firstSegment (segments rel)) with ⟨r, fx⟩
          rcases r with e | v
          · simp [processFile, hr, hlen, hs, hz, hu] at h
            exact absurd (by simp [hu, h] :
                Effect.removeCall q ∈ (u.Upload env.uploadEnv p (firstSegment (segments rel))).2)
              (upload_no_removeCall u env.uploadEnv p (firstSegment (segments rel)) q)
          · rcases hrm : env.removeRes with e | w <;>
            · simp [processFile, hr, hlen, hs, hz, hu, hrm] at h
              rcases h with h | h
              · exact absurd (by simp [hu, h] :
                  Effect.removeCall q ∈ (u.Upload env.uploadEnv p (firstSegment (segments rel))).2)
                  (upload_no_removeCall u env.uploadEnv p (firstSegment (segments rel)) q)
              · subst h
                exact ⟨rfl, rel, rfl, Nat.not_lt.mp hlen, by simp [hu],
                  by simp [processFile, hr, hlen, hs, hz, hu, hrm]⟩

/-- Helper: a remote write in a processFile trace forces agreement of the
two stability reads and fixes the trace prefix: own Stat, open, the two
handle Stats around the settle sleep, then the write on the derived object
path. -/
theorem processFile_writeStart_shape (u : GCSUploader) (env : ProcEnv)
    (p o : String) (h : Effect.writeStart o ∈ (processFile u env p).2) :
    ∃ rel rest, filepathRel rootProfileDir p = Except.ok rel ∧
      o = firstSegment (segments rel) ++ "/" ++ filepathBase p ∧
      (∃ s, env.uploadEnv.stat1Res = Except.ok s ∧
        env.uploadEnv.stat2Res = Except.ok s) ∧
      (processFile u env p).2 =
        [Effect.statFile p, Effect.openFile p, Effect.statHandle p,
         Effect.sleepMs uploadSettleDelayMs, Effect.statHandle p,
         Effect.writeStart (firstSegment (segments rel) ++ "/" ++ filepathBase p)]
          ++ rest := by
  rcases hr : filepathRel rootProfileDir p with e | rel
  · simp [processFile, hr] at h
  · by_cases hlen : (segments rel).length < 2
    · simp [processFile, hr, hlen] at h
    · rcases hs : env.statRes with e | size
      · simp [processFile, hr, hlen, hs] at h
      · by_cases hz : size = 0
        · simp [processFile, hr, hlen, hs, hz] at h
        · rcases hu : u.Upload env.uploadEnv p (firstSegment (segments rel)) with ⟨r, fx⟩
          have hfx2 : (u.Upload env.uploadEnv p (firstSegment (segments rel))).2 = fx := by
            simp [hu]
          rcases r with e | v
          · simp [processFile, hr, hlen, hs, hz, hu] at h
            have hm : Effect.writeStart o ∈
                (u.Upload env.uploadEnv p (firstSegment (segments rel))).2 := by
              simp [hu, h]
            obtain ⟨ho, hstats, rest1, hpre⟩ :=
              upload_writeStart_mem u env.uploadEnv p _ o hm
            rw [hfx2] at hpre
            refine ⟨rel, rest1, rfl, ho, hstats, ?_⟩
            simp [processFile, hr, hlen, hs, hz, hu, hpre]
          · rcases hrm : env.removeRes with e | w <;>
            · simp [processFile, hr, hlen, hs, hz, hu, hrm] at h
              have hm : Effect.writeStart o ∈
                  (u.Upload env.uploadEnv p (firstSegment (segments rel))).2 := by
                simp [hu, h]
              obtain ⟨ho, hstats, rest1, hpre⟩ :=
                upload_writeStart_mem u env.uploadEnv p _ o hm
              rw [hfx2] at hpre
              refine ⟨rel, rest1 ++ [Effect.removeCall p], rfl, ho, hstats, ?_⟩
              simp [processFile, hr, hlen, hs, hz, hu, hrm, hpre]

/-- Helper: when the two stability reads of the nested Upload disagree,
processFile starts no remote write, commits nothing and removes nothing. -/
theorem processFile_drift_no_write (u : GCSUploader) (env : ProcEnv)
    (p : String) (a b : Nat) (h1 : env.uploadEnv.stat1Res = Except.ok a)
    (h2 : env.uploadEnv.stat2Res = Except.ok b) (hne : a ≠ b) :
    (∀ o, Effect.writeStart o ∉ (processFile u env p).2) ∧
    (∀ o ct c, Effect.commitObject o ct c ∉ (processFile u env p).2) ∧
    (∀ q, Effect.removeCall q ∉ (processFile u env p).2) := by
  refine ⟨?_, ?_, ?_⟩
  · intro o h
    rcases processFile_mem_cases u env p _ h with hx | hx | ⟨rel, _, hmem⟩
    · exact Effect.noConfusion hx
    · exact Effect.noConfusion hx
    · exact (upload_drift_no_write u env.uploadEnv p (firstSegment (segments rel))
        a b h1 h2 hne).1 o hmem
  · intro o ct c h
    rcases processFile_mem_cases u env p _ h with hx | hx | ⟨rel, _, hmem⟩
    · exact Effect.noConfusion hx
    · exact Effect.noConfusion hx
    · exact (upload_drift_no_write u env.uploadEnv p (firstSegment (segments rel))
        a b h1 h2 hne).2 o ct c hmem
  · intro q h
    obtain ⟨hq, rel, hr, hlen, hup, htr⟩ := processFile_removeCall_shape u env p q h
    obtain ⟨_, _, s, content, hs1, hs2, _, _⟩ :=
      upload_ok_shape u env.uploadEnv p (firstSegment (segments rel)) hup
    rw [h1] at hs1
    rw [h2] at hs2
    cases hs1
    cases hs2
    exact hne rfl

/-- Helper: on a Create or Write event for a .jfr path the handler sleeps
and then runs processFile, discarding its result. -/
theorem handleFileEvent_createOrWrite (u : GCSUploader) (env : ProcEnv)
    (event : FsEvent) (hjfr : hasSuffix event.name ".jfr" = true)
    (hrm : event.op.remove = false)
    (hcw : event.op.create = true ∨ event.op.write = true) :
    handleFileEvent u env event =
      Effect.sleepMs eventSettleDelayMs :: (processFile u env event.name).2 := by
  rcases hcw with hc | hw
  · simp [handleFileEvent, hjfr, hrm, hc]
  · simp [handleFileEvent, hjfr, hrm, hw]

/-- Helper: the event handler never adds a watch subscription, whatever
the event. -/
theorem handleFileEvent_no_watchAdd (u : GCSUploader) (env : ProcEnv)
    (event : FsEvent) (d : String) :
    Effect.watchAdd d ∉ handleFileEvent u env event := by
  intro h
  unfold handleFileEvent at h
  split at h
  · simp at h
  · split at h
    · simp at h
    · split at h
      · simp at h
        exact processFile_no_watchAdd u env event.name d h
      · simp at h

/-- Helper: the periodic reconciliation scan never adds a watch
subscription. -/
theorem scanAndUploadExisting_no_watchAdd (u : GCSUploader)
    (entries : List (WalkEntry × ProcEnv)) (d : String) :
    Effect.watchAdd d ∉ (scanAndUploadExisting u entries).2 := by
  intro h
  simp only [scanAndUploadExisting, List.mem_flatten, List.mem_map] at h
  obtain ⟨l, ⟨e, he, hl⟩, hmem⟩ := h
  rw [← hl] at hmem
  revert hmem
  unfold scanVisit
  split
  · simp
  · split
    · intro hmem
      exact processFile_no_watchAdd u e.2 e.1.path d hmem
    · simp

/-- Helper: when every walk entry is accessible and every watcher.Add
succeeds, the initial walk subscribes exactly the directories of the walk,
in walk order. -/
theorem watchDirectoryRecursive_adds_all (addRes : String → Except String Unit)
    (hadd : ∀ q, addRes q = Except.ok ()) (entries : List WalkEntry)
    (herr : ∀ e ∈ entries, e.walkErr = none) :
    (watchDirectoryRecursive addRes entries).2 =
      (entries.filter (fun e => e.isDir)).map (fun e => Effect.watchAdd e.path) := by
  induction entries with
  | nil => simp [watchDirectoryRecursive]
  | cons e rest ih =>
    have he : e.walkErr = none := herr e (by simp)
    have ihr := ih (fun x hx => herr x (by simp [hx]))
    by_cases hdir : e.isDir
    · simp [watchDirectoryRecursive, he, hadd e.path, hdir, ihr]
    · simp [watchDirectoryRecursive, he, hadd e.path, hdir, ihr]

/-- Demo uploader instance used by concrete witnesses. -/
def demoUploader : GCSUploader := ⟨"jfr-bucket"⟩

/-- Upload call outcomes of a fully successful transfer. -/
def uploadEnvOk : UploadEnv :=
  ⟨Except.ok (), Except.ok 1000, Except.ok 1000, Except.ok [1, 2, 3], Except.ok ()⟩

/-- Upload call outcomes where the size drifts between the two Stat reads. -/
def uploadEnvDrift : UploadEnv :=
  ⟨Except.ok (), Except.ok 1000, Except.ok 1500, Except.ok [1, 2, 3], Except.ok ()⟩

/-- Upload call outcomes where streaming fails mid-copy. -/
def uploadEnvCopyFail : UploadEnv :=
  ⟨Except.ok (), Except.ok 1000, Except.ok 1000,
    Except.error "connection reset by peer", Except.ok ()⟩

/-- Process call outcomes of a fully successful pipeline run. -/
def procEnvOk : ProcEnv := ⟨Except.ok 1000, uploadEnvOk, Except.ok ()⟩

/-- Process call outcomes whose nested Upload sees a size drift. -/
def procEnvDrift : ProcEnv := ⟨Except.ok 1000, uploadEnvDrift, Except.ok ()⟩

/-- Process call outcomes for a candidate whose file is a zero-byte file. -/
def procEnvEmpty : ProcEnv := ⟨Except.ok 0, uploadEnvOk, Except.ok ()⟩

/-- Process call outcomes for a candidate whose file is already gone at the
initial Stat. -/
def procEnvGone : ProcEnv :=
  ⟨Except.error "stat /tmp/jfr/pod-1/run1.jfr: no such file or directory",
    uploadEnvOk, Except.ok ()⟩

/-- Process call outcomes where the file vanishes between the successful
upload and the Remove call. -/
def procEnvRemoveGone : ProcEnv :=
  ⟨Except.ok 1000, uploadEnvOk,
    Except.error "remove /tmp/jfr/pod-1/run1.jfr: no such file or directory"⟩

/-- Create notification for a fresh .jfr artifact. -/
def jfrCreateEvent : FsEvent :=
  ⟨"/tmp/jfr/pod-1/run1.jfr", ⟨true, false, false, false, false⟩⟩

/-- Create notification whose target is a new per-pod subdirectory. -/
def dirCreateEvent : FsEvent :=
  ⟨"/tmp/jfr/pod-9", ⟨true, false, false, false, false⟩⟩

/-- Walk entries of a small tree: the root, one pod directory, one file. -/
def demoWalkEntries : List WalkEntry :=
  [⟨"/tmp/jfr", true, none⟩, ⟨"/tmp/jfr/pod-1", true, none⟩,
   ⟨"/tmp/jfr/pod-1/run1.jfr", false, none⟩]

/-- C4: Upload returns success only after the remote write is explicitly
finalized: a success result forces the finalizing Close to have returned
nil, and the finalized commit of the derived object is the last action of
the run; on any I/O or remote-API error during streaming or finalization
the result is a failure, no commit is recorded (the partial object is
never treated as committed), and Upload leaves the local file untouched:
it never issues a Remove. -/
theorem upload_finalization_and_failure_safety (u : GCSUploader)
    (env : UploadEnv) (p pod : String) :
    ((u.Upload env p pod).1 = Except.ok () →
      env.closeRes = Except.ok () ∧
      ∃ content, env.copyRes = Except.ok content ∧
        (u.Upload env p pod).2.getLast? =
          some (Effect.commitObject (pod ++ "/" ++ filepathBase p)
            "application/octet-stream" content)) ∧
    ((u.Upload env p pod).1 ≠ Except.ok () →
      ∀ o ct c, Effect.commitObject o ct c ∉ (u.Upload env p pod).2) ∧
    (∀ q, Effect.removeCall q ∉ (u.Upload env p pod).2) := by
  refine ⟨?_, ?_, upload_no_removeCall u env p pod⟩
  · intro h
    obtain ⟨ho, hcl, s, content, h1, h2, hc, htr⟩ := upload_ok_shape u env p pod h
    exact ⟨hcl, content, hc, by rw [htr]; rfl⟩
  · intro h o ct c hmem
    exact h (upload_commit_requires_ok u env p pod o ct c hmem).1

/-- Witness for C4 at concrete inputs: a mid-stream copy failure records
no commit, and a successful run never issues a Remove. -/
theorem upload_finalization_and_failure_safety_witness :
    Effect.commitObject "pod-1/run1.jfr" "application/octet-stream" [9]
      ∉ (demoUploader.Upload uploadEnvCopyFail "/tmp/jfr/pod-1/run1.jfr" "pod-1").2 ∧
    Effect.removeCall "/tmp/jfr/pod-1/run1.jfr"
      ∉ (demoUploader.Upload uploadEnvOk "/tmp/jfr/pod-1/run1.jfr" "pod-1").2 := by
  constructor
  · exact (upload_finalization_and_failure_safety demoUploader uploadEnvCopyFail
      "/tmp/jfr/pod-1/run1.jfr" "pod-1").2.1 (by decide)
      "pod-1/run1.jfr" "application/octet-stream" [9]
  · exact (upload_finalization_and_failure_safety demoUploader uploadEnvOk
      "/tmp/jfr/pod-1/run1.jfr" "pod-1").2.2 "/tmp/jfr/pod-1/run1.jfr"

/-- C5: before streaming any bytes Upload re-checks the size after a brief
delay on the same open file; when the two reads differ the run returns
exactly the size-changed failure with the Stat, sleep, Stat trace, having
started no remote write and recorded no commit. -/
theorem upload_aborts_on_size_drift_before_remote_write (u : GCSUploader)
    (env : UploadEnv) (p pod : String) (a b : Nat)
    (hopen : env.openRes = Except.ok ()) (h1 : env.stat1Res = Except.ok a)
    (h2 : env.stat2Res = Except.ok b) (hne : a ≠ b) :
    u.Upload env p pod =
      (Except.error "file is still being written (size changed)",
        [Effect.openFile p, Effect.statHandle p,
         Effect.sleepMs uploadSettleDelayMs, Effect.statHandle p]) ∧
    (∀ o, Effect.writeStart o ∉ (u.Upload env p pod).2) ∧
    (∀ o ct c, Effect.commitObject o ct c ∉ (u.Upload env p pod).2) := by
  refine ⟨upload_drift_result u env p pod a b hopen h1 h2 hne, ?_, ?_⟩
  · exact (upload_drift_no_write u env p pod a b h1 h2 hne).1
  · exact (upload_drift_no_write u env p pod a b h1 h2 hne).2

/-- Witness for C5 at a concrete drifting input. -/
theorem upload_aborts_on_size_drift_witness :
    demoUploader.Upload uploadEnvDrift "/tmp/jfr/pod-1/run1.jfr" "pod-1" =
      (Except.error "file is still being written (size changed)",
        [Effect.openFile "/tmp/jfr/pod-1/run1.jfr",
         Effect.statHandle "/tmp/jfr/pod-1/run1.jfr",
         Effect.sleepMs uploadSettleDelayMs,
         Effect.statHandle "/tmp/jfr/pod-1/run1.jfr"]) :=
  (upload_aborts_on_size_drift_before_remote_write demoUploader uploadEnvDrift
    "/tmp/jfr/pod-1/run1.jfr" "pod-1" 1000 1500 (by decide) (by decide)
    (by decide) (by decide)).1

/-- C7: a candidate path with fewer than two segments below the watched
root is rejected as a structural error: processFile returns the invalid
path-structure error and performs no action at all, so there is no upload,
no delete, and the file stays in place. -/
theorem processFile_shallow_path_structural_error (u : GCSUploader)
    (env : ProcEnv) (p rel : String)
    (hr : filepathRel rootProfileDir p = Except.ok rel)
    (hlen : (segments rel).length < 2) :
    processFile u env p =
      (Except.error ("invalid file path structure: " ++ p), []) := by
  simp [processFile, hr, hlen]

/-- Witness for C7: a file placed directly under the root. -/
theorem processFile_shallow_path_witness :
    processFile demoUploader procEnvOk "/tmp/jfr/run1.jfr" =
      (Except.error "invalid file path structure: /tmp/jfr/run1.jfr", []) := by
  have h := processFile_shallow_path_structural_error demoUploader procEnvOk
    "/tmp/jfr/run1.jfr" "run1.jfr" (by decide) (by decide)
  rw [h]
  decide

/-- C8: a zero-byte artifact is treated as not ready and skipped without
error: processFile returns success having only performed the Stat, so
there is no upload and no local deletion and the empty file stays in
place. -/
theorem processFile_zero_byte_skip (u : GCSUploader) (env : ProcEnv)
    (p rel : String) (hr : filepathRel rootProfileDir p = Except.ok rel)
    (hlen : 2 ≤ (segments rel).length) (hstat : env.statRes = Except.ok 0) :
    processFile u env p = (Except.ok (), [Effect.statFile p]) := by
  simp [processFile, hr, Nat.not_lt.mpr hlen, hstat]

/-- Witness for C8: a freshly allocated empty artifact. -/
theorem processFile_zero_byte_skip_witness :
    processFile demoUploader procEnvEmpty "/tmp/jfr/pod-1/run1.jfr" =
      (Except.ok (), [Effect.statFile "/tmp/jfr/pod-1/run1.jfr"]) := by
  have h := processFile_zero_byte_skip demoUploader procEnvEmpty
    "/tmp/jfr/pod-1/run1.jfr" "pod-1/run1.jfr" (by decide) (by decide) (by decide)
  rw [h]

/-- C1: a local file is deleted only after the Uploader returned a
finalized success for that file: every Remove call in a processFile trace
names the processed path itself, forces the nested Upload to have
succeeded with a successful finalizing Close, and is the last action of
the run, strictly after the finalized commit; hence an error at the
structural check, the Stat, the stability check or the upload leaves the
file in place for a later retry. -/
theorem processFile_deletes_only_after_finalized_upload_success
    (u : GCSUploader) (env : ProcEnv) (p q : String)
    (h : Effect.removeCall q ∈ (processFile u env p).2) :
    q = p ∧ env.uploadEnv.closeRes = Except.ok () ∧
    ∃ rel content, filepathRel rootProfileDir p = Except.ok rel ∧
      (u.Upload env.uploadEnv p (firstSegment (segments rel))).1 = Except.ok () ∧
      (processFile u env p).2 =
        [Effect.statFile p, Effect.openFile p, Effect.statHandle p,
         Effect.sleepMs uploadSettleDelayMs, Effect.statHandle p,
         Effect.writeStart (firstSegment (segments rel) ++ "/" ++ filepathBase p),
         Effect.closeCall (firstSegment (segments rel) ++ "/" ++ filepathBase p),
         Effect.commitObject (firstSegment (segments rel) ++ "/" ++ filepathBase p)
           "application/octet-stream" content,
         Effect.removeCall p] := by
  obtain ⟨hq, rel, hr, hlen, hup, htr⟩ := processFile_removeCall_shape u env p q h
  obtain ⟨ho, hcl, s, content, h1, h2, hc, hfx⟩ :=
    upload_ok_shape u env.uploadEnv p (firstSegment (segments rel)) hup
  subst hq
  refine ⟨rfl, hcl, rel, content, hr, hup, ?_⟩
  rw [htr, hfx]
  rfl

/-- Witness for C1: in a fully successful concrete run the Remove call is
present and the finalizing Close indeed succeeded. -/
theorem processFile_delete_safety_witness :
    procEnvOk.uploadEnv.closeRes = Except.ok () :=
  (processFile_deletes_only_after_finalized_upload_success demoUploader procEnvOk
    "/tmp/jfr/pod-1/run1.jfr" "/tmp/jfr/pod-1/run1.jfr" (by decide)).2.1

/-- C2: on an event-driven discovery of a .jfr file the pipeline gates the
upload on the stability policy: the nested Upload reads the size, sleeps
the settle delay and re-reads the size; when the two reads differ nothing
is streamed, nothing is committed, nothing is deleted and the run reports
the still-being-written failure, abandoning the attempt; a remote write
happens only when the two reads around the settle delay agreed, and its
trace shows the read, sleep, re-read sequence strictly before the write. -/
theorem eventPipeline_stability_gating (u : GCSUploader) (env : ProcEnv)
    (event : FsEvent) (a b : Nat)
    (hjfr : hasSuffix event.name ".jfr" = true)
    (hrm : event.op.remove = false)
    (hcw : event.op.create = true ∨ event.op.write = true)
    (h1 : env.uploadEnv.stat1Res = Except.ok a)
    (h2 : env.uploadEnv.stat2Res = Except.ok b) :
    (a ≠ b →
      (∀ o, Effect.writeStart o ∉ handleFileEvent u env event) ∧
      (∀ o ct c, Effect.commitObject o ct c ∉ handleFileEvent u env event) ∧
      (∀ q, Effect.removeCall q ∉ handleFileEvent u env event) ∧
      (env.uploadEnv.openRes = Except.ok () → ∀ pod,
        (u.Upload env.uploadEnv event.name pod).1 =
          Except.error "file is still being written (size changed)")) ∧
    (∀ o, Effect.writeStart o ∈ handleFileEvent u env event →
      a = b ∧ ∃ rel rest,
        filepathRel rootProfileDir event.name = Except.ok rel ∧
        o = firstSegment (segments rel) ++ "/" ++ filepathBase event.name ∧
        handleFileEvent u env event =
          [Effect.sleepMs eventSettleDelayMs, Effect.statFile event.name,
           Effect.openFile event.name, Effect.statHandle event.name,
           Effect.sleepMs uploadSettleDelayMs, Effect.statHandle event.name,
           Effect.writeStart
             (firstSegment (segments rel) ++ "/" ++ filepathBase event.name)]
            ++ rest) := by
  have hev := handleFileEvent_createOrWrite u env event hjfr hrm hcw
  constructor
  · intro hne
    obtain ⟨hw, hc, hrmc⟩ := processFile_drift_no_write u env event.name a b h1 h2 hne
    refine ⟨?_, ?_, ?_, ?_⟩
    · intro o ho
      rw [hev] at ho
      simp at ho
      exact hw o ho
    · intro o ct c hoc
      rw [hev] at hoc
      simp at hoc
      exact hc o ct c hoc
    · intro q hq
      rw [hev] at hq
      simp at hq
      exact hrmc q hq
    · intro hopen pod
      rw [upload_drift_result u env.uploadEnv event.name pod a b hopen h1 h2 hne]
  · intro o ho
    rw [hev] at ho
    simp at ho
    obtain ⟨rel, rest, hr, hoeq, ⟨s, hs1, hs2⟩, htr⟩ :=
      processFile_writeStart_shape u env event.name o ho
    have hab : a = b := by
      rw [h1] at hs1
      rw [h2] at hs2
      cases hs1
      cases hs2
      rfl
    refine ⟨hab, rel, rest, hr, hoeq, ?_⟩
    rw [hev, htr]
    rfl

/-- Witness for C2: with a concrete drifting environment the event-driven
attempt streams nothing. -/
theorem eventPipeline_stability_gating_witness :
    Effect.writeStart "pod-1/run1.jfr" ∉
      handleFileEvent demoUploader procEnvDrift jfrCreateEvent := by
  have h := eventPipeline_stability_gating demoUploader procEnvDrift jfrCreateEvent
    1000 1500 (by decide) (by decide) (Or.inl (by decide)) (by decide) (by decide)
  exact (h.1 (by decide)).1 "pod-1/run1.jfr"

/-- C9: a processed upload commits the object at sourceID slash base name,
where sourceID is the first path segment below the watched root, with
content type application/octet-stream; and in the remote-store model a
second commit at the same object path overwrites the first object rather
than versioning it. -/
theorem upload_object_naming_content_type_overwrite (u : GCSUploader)
    (env : ProcEnv) (p rel : String) (size : Nat) (content : List Nat)
    (hr : filepathRel rootProfileDir p = Except.ok rel)
    (hlen : 2 ≤ (segments rel).length)
    (hstat : env.statRes = Except.ok size) (hsz : size ≠ 0)
    (hup : (u.Upload env.uploadEnv p (firstSegment (segments rel))).1 = Except.ok ())
    (hcopy : env.uploadEnv.copyRes = Except.ok content) :
    Effect.commitObject (firstSegment (segments rel) ++ "/" ++ filepathBase p)
        "application/octet-stream" content ∈ (processFile u env p).2 ∧
    (∀ store ct0 c0,
      getObject
        (putObject
          (putObject store (firstSegment (segments rel) ++ "/" ++ filepathBase p) ct0 c0)
          (firstSegment (segments rel) ++ "/" ++ filepathBase p)
          "application/octet-stream" content)
        (firstSegment (segments rel) ++ "/" ++ filepathBase p) =
      some ("application/octet-stream", content)) := by
  constructor
  · obtain ⟨ho, hcl, s, content2, h1, h2, hc, hfx⟩ :=
      upload_ok_shape u env.uploadEnv p (firstSegment (segments rel)) hup
    rw [hcopy] at hc
    cases hc
    have hpair : u.Upload env.uploadEnv p (firstSegment (segments rel)) =
        (Except.ok (),
         [Effect.openFile p, Effect.statHandle p,
          Effect.sleepMs uploadSettleDelayMs, Effect.statHandle p,
          Effect.writeStart (firstSegment (segments rel) ++ "/" ++ filepathBase p),
          Effect.closeCall (firstSegment (segments rel) ++ "/" ++ filepathBase p),
          Effect.commitObject (firstSegment (segments rel) ++ "/" ++ filepathBase p)
            "application/octet-stream" content]) :=
      Prod.ext_iff.mpr ⟨hup, hfx⟩
    rcases hrm : env.removeRes with e | w <;>
      simp [processFile, hr, Nat.not_lt.mpr hlen, hstat, hsz, hpair, hrm]
  · intro store ct0 c0
    simp [putObject, getObject]

/-- Witness for C9 at a concrete run and store. -/
theorem upload_object_naming_witness :
    Effect.commitObject "pod-1/run1.jfr" "application/octet-stream" [1, 2, 3]
      ∈ (processFile demoUploader procEnvOk "/tmp/jfr/pod-1/run1.jfr").2 ∧
    getObject
      (putObject (putObject [] "pod-1/run1.jfr" "text/plain" [9])
        "pod-1/run1.jfr" "application/octet-stream" [1, 2, 3]) "pod-1/run1.jfr" =
      some ("application/octet-stream", [1, 2, 3]) := by
  have h := upload_object_naming_content_type_overwrite demoUploader procEnvOk
    "/tmp/jfr/pod-1/run1.jfr" "pod-1/run1.jfr" 1000 [1, 2, 3] (by decide)
    (by decide) (by decide) (by decide) (by decide) (by decide)
  have e1 : firstSegment (segments "pod-1/run1.jfr") ++ "/" ++
      filepathBase "/tmp/jfr/pod-1/run1.jfr" = "pod-1/run1.jfr" := by decide
  constructor
  · have hm := h.1
    rw [e1] at hm
    exact hm
  · have hov := h.2 [] "text/plain" [9]
    rw [e1] at hov
    exact hov

/-- C10: a .jfr file nested three or more segments below the root is not a
structural error: with a successful environment the run completes with
success, and the committed object path is the first segment joined with
the base name only, dropping every intermediate directory, so two paths
with the same first segment and the same base name map to the same remote
object path. -/
theorem processFile_nested_path_maps_to_flattened_object (u : GCSUploader)
    (env : ProcEnv) (p rel : String) (size : Nat) (content : List Nat)
    (hr : filepathRel rootProfileDir p = Except.ok rel)
    (hlen : 3 ≤ (segments rel).length)
    (hstat : env.statRes = Except.ok size) (hsz : size ≠ 0)
    (hup : (u.Upload env.uploadEnv p (firstSegment (segments rel))).1 = Except.ok ())
    (hcopy : env.uploadEnv.copyRes = Except.ok content)
    (hrm : env.removeRes = Except.ok ()) :
    (processFile u env p).1 = Except.ok () ∧
    Effect.commitObject (firstSegment (segments rel) ++ "/" ++ filepathBase p)
      "application/octet-stream" content ∈ (processFile u env p).2 ∧
    (∀ q relq, filepathRel rootProfileDir q = Except.ok relq →
      firstSegment (segments relq) = firstSegment (segments rel) →
      filepathBase q = filepathBase p →
      firstSegment (segments relq) ++ "/" ++ filepathBase q =
        firstSegment (segments rel) ++ "/" ++ filepathBase p) := by
  have hlen2 : 2 ≤ (segments rel).length := le_trans (by norm_num) hlen
  obtain ⟨ho, hcl, s, content2, h1, h2, hc, hfx⟩ :=
    upload_ok_shape u env.uploadEnv p (firstSegment (segments rel)) hup
  rw [hcopy] at hc
  cases hc
  have hpair : u.Upload env.uploadEnv p (firstSegment (segments rel)) =
      (Except.ok (),
       [Effect.openFile p, Effect.statHandle p,
          Effect.sleepMs uploadSettleDelayMs, Effect.statHandle p,
          Effect.writeStart (firstSegment (segments rel) ++ "/" ++ filepathBase p),
          Effect.closeCall (firstSegment (segments rel) ++ "/" ++ filepathBase p),
          Effect.commitObject (firstSegment (segments rel) ++ "/" ++ filepathBase p)
            "application/octet-stream" content]) :=
    Prod.ext_iff.mpr ⟨hup, hfx⟩
  refine ⟨?_, ?_, ?_⟩
  · simp [processFile, hr, Nat.not_lt.mpr hlen2, hstat, hsz, hpair, hrm]
  · simp [processFile, hr, Nat.not_lt.mpr hlen2, hstat, hsz, hpair, hrm]
  · intro q relq hrq hq1 hq2
    rw [hq1, hq2]

/-- Witness for C10: a deeper-nested artifact is processed to completion
and collides with a sibling subtree carrying the same base name. -/
theorem processFile_nested_path_witness :
    (processFile demoUploader procEnvOk "/tmp/jfr/pod-1/sub/run1.jfr").1 =
      Except.ok () ∧
    firstSegment (segments "pod-1/other/run1.jfr") ++ "/" ++
        filepathBase "/tmp/jfr/pod-1/other/run1.jfr" =
      firstSegment (segments "pod-1/sub/run1.jfr") ++ "/" ++
        filepathBase "/tmp/jfr/pod-1/sub/run1.jfr" := by
  have h := processFile_nested_path_maps_to_flattened_object demoUploader procEnvOk
    "/tmp/jfr/pod-1/sub/run1.jfr" "pod-1/sub/run1.jfr" 1000 [1, 2, 3] (by decide)
    (by decide) (by decide) (by decide) (by decide) (by decide) (by decide)
  exact ⟨h.1, h.2.2 "/tmp/jfr/pod-1/other/run1.jfr" "pod-1/other/run1.jfr"
    (by decide) (by decide) (by decide)⟩

/-- C3 counterexample: a create notification whose target is a newly
created per-pod directory adds no watch subscription: the handler ignores
the event entirely because the directory name lacks the .jfr suffix, and
no code path of the event handler ever adds a subscription, so the claimed
create-notification-triggered subscription-add does not happen. -/
theorem dirCreate_event_adds_no_watch_counterexample :
    handleFileEvent demoUploader procEnvOk dirCreateEvent = [] ∧
    Effect.watchAdd "/tmp/jfr/pod-9" ∉
      handleFileEvent demoUploader procEnvOk dirCreateEvent := by
  refine ⟨by decide, by decide⟩

/-- C3 amended: watch subscriptions are added only by the initial
recursive tree walk, which subscribes every directory it visits; neither
the event handler (for any event, directory creations included) nor the
periodic scan ever adds a subscription, so a directory created after
startup is never subscribed and its files are picked up only by the
periodic scan. -/
theorem watch_subscriptions_only_from_initial_walk
    (addRes : String → Except String Unit) (hadd : ∀ q, addRes q = Except.ok ())
    (entries : List WalkEntry) (herr : ∀ e ∈ entries, e.walkErr = none) :
    (watchDirectoryRecursive addRes entries).2 =
      (entries.filter (fun e => e.isDir)).map (fun e => Effect.watchAdd e.path) ∧
    (∀ u env event d, Effect.watchAdd d ∉ handleFileEvent u env event) ∧
    (∀ u scanEntries d,
      Effect.watchAdd d ∉ (scanAndUploadExisting u scanEntries).2) := by
  refine ⟨watchDirectoryRecursive_adds_all addRes hadd entries herr, ?_, ?_⟩
  · intro u env event d
    exact handleFileEvent_no_watchAdd u env event d
  · intro u scanEntries d
    exact scanAndUploadExisting_no_watchAdd u scanEntries d

/-- Witness for amended C3: on a concrete tree the initial walk subscribes
exactly the two directories, and a later file event adds nothing. -/
theorem watch_subscriptions_only_from_initial_walk_witness :
    (watchDirectoryRecursive (fun _ => Except.ok ()) demoWalkEntries).2 =
      [Effect.watchAdd "/tmp/jfr", Effect.watchAdd "/tmp/jfr/pod-1"] ∧
    Effect.watchAdd "/tmp/jfr/pod-9" ∉
      handleFileEvent demoUploader procEnvOk jfrCreateEvent := by
  have h := watch_subscriptions_only_from_initial_walk (fun _ => Except.ok ())
    (fun q => rfl) demoWalkEntries (by decide)
  constructor
  · rw [h.1]
    decide
  · exact h.2.1 demoUploader procEnvOk jfrCreateEvent "/tmp/jfr/pod-9"

/-- C6 counterexample: processing a path whose file is already gone is not
error-free: processFile returns a file-not-accessible error for the gone
file, and a Remove that finds the file already gone likewise surfaces as a
failed-to-delete error, so an error does propagate out of processFile for
such a path. -/
theorem processFile_missing_file_error_counterexample :
    (processFile demoUploader procEnvGone "/tmp/jfr/pod-1/run1.jfr").1 =
      Except.error
        "file not accessible: stat /tmp/jfr/pod-1/run1.jfr: no such file or directory" ∧
    (processFile demoUploader procEnvGone "/tmp/jfr/pod-1/run1.jfr").1 ≠
      Except.ok () ∧
    (processFile demoUploader procEnvRemoveGone "/tmp/jfr/pod-1/run1.jfr").1 =
      Except.error
        "failed to delete local file: remove /tmp/jfr/pod-1/run1.jfr: no such file or directory" := by
  refine ⟨by decide, by decide, by decide⟩

/-- C6 amended: processing a path whose file is already gone performs no
upload and no deletion and cannot crash the pipeline, but it is not
silent: processFile returns a file-not-accessible error after the lone
Stat; both callers log and discard that error, and the periodic scan
always completes with success whatever its entries, so nothing propagates
beyond the log line. -/
theorem processFile_missing_file_harmless (u : GCSUploader) (env : ProcEnv)
    (p rel e : String) (hr : filepathRel rootProfileDir p = Except.ok rel)
    (hlen : 2 ≤ (segments rel).length)
    (hstat : env.statRes = Except.error e) :
    processFile u env p =
      (Except.error ("file not accessible: " ++ e), [Effect.statFile p]) ∧
    (∀ u2 scanEntries, (scanAndUploadExisting u2 scanEntries).1 = Except.ok ()) := by
  constructor
  · simp [processFile, hr, Nat.not_lt.mpr hlen, hstat]
  · intro u2 scanEntries
    rfl

/-- Witness for amended C6 at a concrete gone file. -/
theorem processFile_missing_file_harmless_witness :
    processFile demoUploader procEnvGone "/tmp/jfr/pod-1/run1.jfr" =
      (Except.error
        "file not accessible: stat /tmp/jfr/pod-1/run1.jfr: no such file or directory",
       [Effect.statFile "/tmp/jfr/pod-1/run1.jfr"]) := by
  have h := processFile_missing_file_harmless demoUploader procEnvGone
    "/tmp/jfr/pod-1/run1.jfr" "pod-1/run1.jfr"
    "stat /tmp/jfr/pod-1/run1.jfr: no such file or directory"
    (by decide) (by decide) (by decide)
  rw [h.1]
  decide
